import Mathlib

/-!
Shallow embedding of the configuration layer of the SCT chatbot service
(`doc/templates/chatbot-service/config.py`).  The file defines a pydantic
`Settings(BaseSettings)` model: a declarative schema of typed fields with
defaults, loaded from the process environment and an optional `.env`
override file, two `field_validator`s (`parse_cors_origins` for
`CORS_ORIGINS`, `validate_log_level` for `LOG_LEVEL`) and two derived
`@property` predicates (`is_production`, `is_development`).

The embedding keeps the source's names where Lean allows it.  Raw values
coming from the environment are strings; coercion into the declared field
type follows pydantic v2's lax coercion rules for values supplied as
strings.  Fallible steps return `Except ConfigError`.  Construction
fails in two stages, mirroring pydantic-settings: the settings sources
JSON-decode every complex (`List[str]`) value eagerly and raise a
`SettingsError` for the first field whose value is not valid JSON, and
only then does model validation run, accumulating all per-field errors
into one `ValidationError`.

Python string primitives (`split(",")`, `strip()`, `upper()`, `lower()`)
are embedded as structurally recursive functions on the character list of
the string, so that every definition evaluates by kernel reduction.  The
case-mapping functions use `Char.toUpper`/`Char.toLower`, which agree with
Python on the ASCII range; every token the configuration compares against
is ASCII.
-/

deriving instance DecidableEq for Except

/-- Python whitespace test used by `str.strip()` (ASCII whitespace:
space, tab, newline, carriage return, vertical tab, form feed). -/
def pyIsSpace (c : Char) : Bool :=
  c == ' ' || c == '\t' || c == '\n' || c == '\r' || c == '\x0b' || c == '\x0c'

/-- Single-character splitter on the character list: splits at every
occurrence of `sep`, keeps empty segments, and returns one (empty)
segment for the empty list — the semantics of Python `str.split(sep)`
for a one-character separator. -/
def splitChar (sep : Char) (cs : List Char) : List (List Char) :=
  match cs with
  | [] => [[]]
  | c :: rest =>
    match splitChar sep rest, c == sep with
    | r, true => [] :: r
    | [], false => [[c]]
    | g :: gs, false => (c :: g) :: gs

/-- Python `str.split(",")`. -/
def pySplitComma (s : String) : List String :=
  (splitChar ',' s.data).map String.mk

/-- Python `str.strip()`: remove leading and trailing whitespace. -/
def pyStrip (s : String) : String :=
  String.mk (((s.data.dropWhile pyIsSpace).reverse.dropWhile pyIsSpace).reverse)

/-- Python `str.upper()` (ASCII case mapping). -/
def pyUpper (s : String) : String :=
  String.mk (s.data.map Char.toUpper)

/-- Python `str.lower()` (ASCII case mapping). -/
def pyLower (s : String) : String :=
  String.mk (s.data.map Char.toLower)

/-- Error taxonomy of the loader: a required field with no source value, a
raw value that cannot be coerced into the declared type (pydantic's
validation error for the field), and the enum check raised by
`validate_log_level` (a `ValueError` naming the field and the allowed
set in its message). -/
inductive ConfigError where
  | missing (field : String)
  | coercion (field raw targetType : String)
  | invalidEnum (field value : String) (allowed : List String)
deriving DecidableEq

/-- The argument of the `mode="before"` validator `parse_cors_origins`:
the raw value is either still a string (as read from the environment) or
already a list of strings (the declared default, or a pre-split value). -/
inductive CorsInput where
  | str (s : String)
  | list (l : List String)
deriving DecidableEq

/-- `Settings.parse_cors_origins` (config.py lines 169-175):
`if isinstance(v, str): return [origin.strip() for origin in v.split(",")]`,
otherwise `return v`.  The body of the Python function has no raising
path, so the embedding always returns `Except.ok`. -/
def parse_cors_origins (v : CorsInput) : Except ConfigError CorsInput :=
  match v with
  | CorsInput.str s => Except.ok (CorsInput.list ((pySplitComma s).map pyStrip))
  | CorsInput.list l => Except.ok (CorsInput.list l)

/-- The `valid_levels` list of `Settings.validate_log_level`
(config.py line 181). -/
def valid_levels : List String :=
  ["DEBUG", "INFO", "WARNING", "ERROR", "CRITICAL"]

/-- `Settings.validate_log_level` (config.py lines 177-184): raise a
`ValueError` naming the field and the allowed set when `v.upper()` is not
in `valid_levels`, else return `v.upper()`. -/
def validate_log_level (v : String) : Except ConfigError String :=
  if pyUpper v ∈ valid_levels then Except.ok (pyUpper v)
  else Except.error (ConfigError.invalidEnum ("LOG_LEVEL") v valid_levels)

/-- `Settings.is_production` (config.py lines 186-189):
`self.ENVIRONMENT.lower() == "production"`, as a function of the
`ENVIRONMENT` field value. -/
def is_production (environment : String) : Bool :=
  pyLower environment == ("production")

/-- `Settings.is_development` (config.py lines 191-194):
`self.ENVIRONMENT.lower() == "development"`. -/
def is_development (environment : String) : Bool :=
  pyLower environment == ("development")

/-- Whitespace strip on the character list (helper for `pyStrip` and the
numeric coercions, which strip surrounding whitespace). -/
def stripChars (cs : List Char) : List Char :=
  ((cs.dropWhile pyIsSpace).reverse.dropWhile pyIsSpace).reverse

/-- Parse a non-empty all-digit character list as a natural number. -/
def parseNatChars (cs : List Char) : Option Nat :=
  if cs ≠ [] ∧ cs.all Char.isDigit then
    some (cs.foldl (fun n c => n * 10 + (c.toNat - 48)) 0)
  else none

/-- Parse an optionally signed integer literal.  Models pydantic v2's lax
string-to-int coercion on plain integer literals (the only shape the
configuration exercises). -/
def parseIntChars (cs : List Char) : Option Int :=
  match cs with
  | '-' :: rest => (parseNatChars rest).map (fun n => -(n : Int))
  | '+' :: rest => (parseNatChars rest).map (fun n => (n : Int))
  | _ => (parseNatChars cs).map (fun n => (n : Int))

/-- Parse an optionally signed decimal literal (`digits` or
`digits.digits`) as an exact rational.  Models pydantic v2's lax
string-to-float coercion on plain decimal literals; scientific notation
and `inf`/`nan` are not needed by any configured value. -/
def parseDecimalChars (cs : List Char) : Option Rat :=
  let signBody : Bool × List Char :=
    match cs with
    | '-' :: rest => (true, rest)
    | '+' :: rest => (false, rest)
    | _ => (false, cs)
  let mag : Option Rat :=
    match splitChar '.' signBody.2 with
    | [w] => (parseNatChars w).map (fun n => (n : Rat))
    | [w, f] =>
      match parseNatChars w, parseNatChars f with
      | some wn, some fn => some ((wn : Rat) + (fn : Rat) / ((10 : Rat) ^ f.length))
      | _, _ => none
    | _ => none
  mag.map (fun q => if signBody.1 then -q else q)

/-- The string tokens pydantic v2 coerces to `True` for a `bool` field
(`str_as_bool` in pydantic-core), compared after lowercasing. -/
def pydanticTrueTokens : List String :=
  ["true", "t", "y", "yes", "on", "1"]

/-- The string tokens pydantic v2 coerces to `False` for a `bool` field
(`str_as_bool` in pydantic-core), compared after lowercasing. -/
def pydanticFalseTokens : List String :=
  ["false", "f", "n", "no", "off", "0"]

/-- Coercion of a raw environment string into a `bool` field such as
`DEBUG` (config.py line 32).  The field is declared `bool`, so pydantic
v2's lax string-to-bool coercion applies: the lowercased raw value is
matched against the accepted true/false token sets; anything else is a
validation (coercion) error for the field. -/
def coerceBool (field raw : String) : Except ConfigError Bool :=
  if pyLower raw ∈ pydanticTrueTokens then Except.ok true
  else if pyLower raw ∈ pydanticFalseTokens then Except.ok false
  else Except.error (ConfigError.coercion field raw ("bool"))

/-- Parse one item of a JSON string array: surrounding whitespace, then a
double-quoted literal with no interior quote (no escape sequences — none
occur in the origin/method/header lists this configuration takes). -/
def parseJsonStringItem (cs : List Char) : Option String :=
  match stripChars cs with
  | '"' :: rest =>
    match rest.reverse with
    | '"' :: midRev => if ('"' ∈ midRev) then none else some (String.mk midRev.reverse)
    | _ => none
  | _ => none

/-- Parse a JSON array of simple string literals.  pydantic-settings
feeds a `List[str]` field by `json.loads` on the raw environment string;
this models that on arrays of escape-free strings that contain neither
commas nor quotes, the only shapes relevant to the declared list
fields. -/
def parseJsonStringList (s : String) : Option (List String) :=
  match stripChars s.data with
  | '[' :: rest =>
    match rest.reverse with
    | ']' :: midRev =>
      let mid := midRev.reverse
      if stripChars mid = [] then some []
      else (splitChar ',' mid).mapM parseJsonStringItem
    | _ => none
  | _ => none

/-- The declared type of a configuration field (the annotation in
config.py): `str`, `int`, `float`, `bool`, `List[str]` or
`Optional[str]`. -/
inductive FType where
  | str
  | int
  | float
  | bool
  | listStr
  | optStr
deriving DecidableEq

/-- A coerced, typed field value of a `SettingsInstance`.  Floats are
represented as exact rationals (every configured float literal is an
exact decimal). -/
inductive Val where
  | str (s : String)
  | int (i : Int)
  | float (q : Rat)
  | bool (b : Bool)
  | list (l : List String)
  | optStr (o : Option String)
deriving DecidableEq

/-- One field of the declarative schema: name, declared type, and the
declared default (`none` marks a required field, declared `Field(...)` in
config.py). -/
structure FieldSpec where
  name : String
  type : FType
  default : Option Val
deriving DecidableEq

/-- The full `Settings` schema of config.py (lines 25-167), one
`FieldSpec` per declared field, in declaration order. -/
def schema : List FieldSpec :=
  [⟨("APP_NAME"), FType.str, some (Val.str ("sct-chatbot-service"))⟩,
   ⟨("APP_VERSION"), FType.str, some (Val.str ("1.0.0"))⟩,
   ⟨("APP_DESCRIPTION"), FType.str,
     some (Val.str ("SCT Chatbot Microservice - AI-Powered Security Assistant"))⟩,
   ⟨("ENVIRONMENT"), FType.str, some (Val.str ("development"))⟩,
   ⟨("DEBUG"), FType.bool, some (Val.bool false)⟩,
   ⟨("HOST"), FType.str, some (Val.str ("0.0.0.0"))⟩,
   ⟨("PORT"), FType.int, some (Val.int 8000)⟩,
   ⟨("WORKERS"), FType.int, some (Val.int 4)⟩,
   ⟨("RELOAD"), FType.bool, some (Val.bool false)⟩,
   ⟨("API_V1_PREFIX"), FType.str, some (Val.str ("/api/v1"))⟩,
   ⟨("CORS_ORIGINS"), FType.listStr, some (Val.list (["http://localhost:4200"]))⟩,
   ⟨("CORS_ALLOW_CREDENTIALS"), FType.bool, some (Val.bool true)⟩,
   ⟨("CORS_ALLOW_METHODS"), FType.listStr,
     some (Val.list (["GET", "POST", "PUT", "DELETE", "OPTIONS"]))⟩,
   ⟨("CORS_ALLOW_HEADERS"), FType.listStr, some (Val.list (["*"]))⟩,
   ⟨("AZURE_TENANT_ID"), FType.str, none⟩,
   ⟨("AZURE_CLIENT_ID"), FType.str, none⟩,
   ⟨("AZURE_CLIENT_SECRET"), FType.str, none⟩,
   ⟨("AZURE_OPENAI_ENDPOINT"), FType.str, none⟩,
   ⟨("AZURE_OPENAI_API_KEY"), FType.str, none⟩,
   ⟨("AZURE_OPENAI_DEPLOYMENT"), FType.str, some (Val.str ("gpt-4o"))⟩,
   ⟨("AZURE_OPENAI_API_VERSION"), FType.str, some (Val.str ("2024-02-15-preview"))⟩,
   ⟨("AZURE_OPENAI_TEMPERATURE"), FType.float, some (Val.float ((7 : Rat) / 10))⟩,
   ⟨("AZURE_OPENAI_MAX_TOKENS"), FType.int, some (Val.int 2000)⟩,
   ⟨("AZURE_WORKSPACE_ID"), FType.str, none⟩,
   ⟨("AZURE_LOG_ANALYTICS_ENDPOINT"), FType.str,
     some (Val.str ("https://api.loganalytics.io/v1"))⟩,
   ⟨("REDIS_HOST"), FType.str, none⟩,
   ⟨("REDIS_PORT"), FType.int, some (Val.int 6380)⟩,
   ⟨("REDIS_PASSWORD"), FType.optStr, some (Val.optStr none)⟩,
   ⟨("REDIS_SSL"), FType.bool, some (Val.bool true)⟩,
   ⟨("REDIS_DB"), FType.int, some (Val.int 0)⟩,
   ⟨("REDIS_MAX_CONNECTIONS"), FType.int, some (Val.int 50)⟩,
   ⟨("JWT_ALGORITHM"), FType.str, some (Val.str ("RS256"))⟩,
   ⟨("JWT_AUDIENCE"), FType.str, some (Val.str ("api://chatbot-service"))⟩,
   ⟨("JWT_ISSUER"), FType.str, none⟩,
   ⟨("JWT_LEEWAY"), FType.int, some (Val.int 10)⟩,
   ⟨("RATE_LIMIT_ENABLED"), FType.bool, some (Val.bool true)⟩,
   ⟨("RATE_LIMIT_PER_MINUTE"), FType.int, some (Val.int 60)⟩,
   ⟨("RATE_LIMIT_PER_HOUR"), FType.int, some (Val.int 1000)⟩,
   ⟨("CONVERSATION_TIMEOUT_MINUTES"), FType.int, some (Val.int 60)⟩,
   ⟨("MAX_CONVERSATION_HISTORY"), FType.int, some (Val.int 100)⟩,
   ⟨("MAX_MESSAGE_LENGTH"), FType.int, some (Val.int 2000)⟩,
   ⟨("CONTEXT_WINDOW_SIZE"), FType.int, some (Val.int 10)⟩,
   ⟨("LOG_LEVEL"), FType.str, some (Val.str ("INFO"))⟩,
   ⟨("LOG_FORMAT"), FType.str, some (Val.str ("json"))⟩,
   ⟨("APPLICATIONINSIGHTS_CONNECTION_STRING"), FType.optStr, some (Val.optStr none)⟩,
   ⟨("METRICS_ENABLED"), FType.bool, some (Val.bool true)⟩,
   ⟨("ENABLE_TRACING"), FType.bool, some (Val.bool true)⟩,
   ⟨("FEATURE_WEBSOCKET_ENABLED"), FType.bool, some (Val.bool true)⟩,
   ⟨("MOCK_OPENAI"), FType.bool, some (Val.bool false)⟩,
   ⟨("MOCK_SENTINEL"), FType.bool, some (Val.bool false)⟩,
   ⟨("TEST_MODE"), FType.bool, some (Val.bool false)⟩]

/-- The `model_config = SettingsConfigDict(...)` of config.py lines
15-20.  Only `env_file`, `env_file_encoding`, `case_sensitive` and
`extra` are set there; `frozen` is not, so it keeps pydantic's default
`False`. -/
structure ModelConfig where
  env_file : String
  env_file_encoding : String
  case_sensitive : Bool
  extra : String
  frozen : Bool
deriving DecidableEq

/-- `Settings.model_config` (config.py lines 15-20). -/
def model_config : ModelConfig :=
  { env_file := (".env"), env_file_encoding := ("utf-8"),
    case_sensitive := true, extra := ("ignore"), frozen := false }

/-- Case-sensitive key lookup in a key/value list (the process
environment, or the parsed `.env` override file).  `case_sensitive=True`
is set in `model_config`, so names match exactly. -/
def lookupKV (kvs : List (String × String)) (name : String) : Option String :=
  match kvs with
  | [] => none
  | (k, v) :: rest => if k == name then some v else lookupKV rest name

/-- Raw-value resolution for one field name: the live environment first,
then the `.env` override file when it exists (`file = none` models an
absent file), then nothing.  This is pydantic-settings' source priority:
environment variables take precedence over the dotenv file. -/
def resolveRaw (env : List (String × String)) (file : Option (List (String × String)))
    (name : String) : Option String :=
  match lookupKV env name with
  | some v => some v
  | none =>
    match file with
    | some kvs => lookupKV kvs name
    | none => none

/-- Coercion of a raw source string into the declared type of a field:
pydantic v2's lax rules for string input.  `str` passes through, `int`
and `float` parse numeric literals (surrounding whitespace stripped),
`bool` matches the accepted token sets, `List[str]` fields are decoded
from JSON by pydantic-settings, and `Optional[str]` takes the string
as-is. -/
def coerceVal (field : String) (t : FType) (raw : String) : Except ConfigError Val :=
  match t with
  | FType.str => Except.ok (Val.str raw)
  | FType.int =>
    match parseIntChars (stripChars raw.data) with
    | some i => Except.ok (Val.int i)
    | none => Except.error (ConfigError.coercion field raw ("int"))
  | FType.float =>
    match parseDecimalChars (stripChars raw.data) with
    | some q => Except.ok (Val.float q)
    | none => Except.error (ConfigError.coercion field raw ("float"))
  | FType.bool => (coerceBool field raw).map Val.bool
  | FType.listStr =>
    match parseJsonStringList raw with
    | some l => Except.ok (Val.list l)
    | none => Except.error (ConfigError.coercion field raw ("list[str]"))
  | FType.optStr => Except.ok (Val.optStr (some raw))

/-- Model-validation of one field: resolve the raw value (environment,
then override file); when no source supplies one, use the declared
default (every declared default is already in canonical validated form)
or fail with `missing` when the field is required.  A raw string found
in a source is pushed through the field's pipeline.  Because the
annotation of `CORS_ORIGINS` is a plain `List[str]`, its source value
reaches model validation already JSON-decoded to a list by the settings
source (see `sourceError`) — the `mode="before"` validator therefore
receives the decoded list and passes it through; the string branch of
`parse_cors_origins` is never reached from environment loading.  The
decode-failure branch here is unreachable when the source stage
succeeded, since the source stage has already checked every supplied
`List[str]` value of both sources. -/
def loadField (env : List (String × String)) (file : Option (List (String × String)))
    (f : FieldSpec) : Except ConfigError Val :=
  match resolveRaw env file f.name with
  | none =>
    match f.default with
    | some d => Except.ok d
    | none => Except.error (ConfigError.missing f.name)
  | some raw =>
    if f.name == ("CORS_ORIGINS") then
      match parseJsonStringList raw with
      | some l =>
        match parse_cors_origins (CorsInput.list l) with
        | Except.ok (CorsInput.list l2) => Except.ok (Val.list l2)
        | Except.ok (CorsInput.str s) => Except.ok (Val.str s)
        | Except.error e => Except.error e
      | none => Except.error (ConfigError.coercion f.name raw ("list[str]"))
    else if f.name == ("LOG_LEVEL") then
      match coerceVal f.name f.type raw with
      | Except.ok (Val.str s) => (validate_log_level s).map Val.str
      | r => r
    else coerceVal f.name f.type raw

/-- The errors produced by loading a list of fields in declaration
order: pydantic v2 validates every field and collects every failing
field's error (it does not stop at the first failure). -/
def loadErrors (env : List (String × String)) (file : Option (List (String × String))) :
    List FieldSpec → List ConfigError
  | [] => []
  | f :: rest =>
    match loadField env file f with
    | Except.ok _ => loadErrors env file rest
    | Except.error e => e :: loadErrors env file rest

/-- The successfully loaded (name, value) pairs of a list of fields, in
declaration order. -/
def loadVals (env : List (String × String)) (file : Option (List (String × String))) :
    List FieldSpec → List (String × Val)
  | [] => []
  | f :: rest =>
    match loadField env file f with
    | Except.ok v => (f.name, v) :: loadVals env file rest
    | Except.error _ => loadVals env file rest

/-- One source's eager complex-decode check for one field:
pydantic-settings JSON-decodes the value of every complex (`List[str]`)
field while extracting it from a source, before model validation; this
returns `true` when the source supplies a value for the field and that
value fails JSON decoding. -/
def sourceFieldError (kvs : List (String × String)) (f : FieldSpec) : Bool :=
  match lookupKV kvs f.name with
  | some raw => f.type == FType.listStr && (parseJsonStringList raw).isNone
  | none => false

/-- The first field (in declaration order) whose value in this one
source fails complex decoding — the field named by the `SettingsError`
that source raises. -/
def sourceDecodeError (kvs : List (String × String)) : Option String :=
  (schema.find? (fun f => sourceFieldError kvs f)).map (fun f => f.name)

/-- The eager source stage of `Settings()` construction: the environment
source extracts (and JSON-decodes complex values for) every declared
field first, then the dotenv source does the same over the override
file's own entries (even for fields the environment also supplies).  The
first `List[str]` field whose supplied value is not valid JSON makes the
source raise `SettingsError` naming that field alone, before any model
validation runs. -/
def sourceError (env : List (String × String)) (file : Option (List (String × String))) :
    Option String :=
  match sourceDecodeError env with
  | some name => some name
  | none =>
    match file with
    | some kvs => sourceDecodeError kvs
    | none => none

/-- The two failure exceptions of `Settings()` construction: the eager
source-stage `SettingsError` naming the one field whose complex value
failed JSON decoding, and the aggregated `ValidationError` carrying all
model-validation field errors. -/
inductive LoadError where
  | settingsError (field : String)
  | validationError (errs : List ConfigError)
deriving DecidableEq

/-- `Settings()` construction: the settings sources run first and a
complex-decode failure aborts eagerly with `SettingsError` for that one
field; otherwise every schema field is model-validated, and if any field
failed the load aborts with the accumulated error list (pydantic raises
one `ValidationError` carrying all of them).  No partial instance is
ever returned. -/
def load (env : List (String × String)) (file : Option (List (String × String))) :
    Except LoadError (List (String × Val)) :=
  match sourceError env file with
  | some name => Except.error (LoadError.settingsError name)
  | none =>
    match loadErrors env file schema with
    | [] => Except.ok (loadVals env file schema)
    | e :: errs => Except.error (LoadError.validationError (e :: errs))

/-- Field read on a constructed instance (`settings.NAME`). -/
def getVal (inst : List (String × Val)) (name : String) : Option Val :=
  match inst with
  | [] => none
  | (k, v) :: rest => if k == name then some v else getVal rest name

/-- Raw field update on the instance's attribute map: replace the value
when the name is present, append it otherwise (Python `__dict__`
assignment). -/
def setVal (inst : List (String × Val)) (name : String) (v : Val) : List (String × Val) :=
  match inst with
  | [] => [(name, v)]
  | (k, w) :: rest => if k == name then (k, v) :: rest else (k, w) :: setVal rest name v

/-- Attribute assignment `settings.NAME = v` on a constructed instance
(pydantic `BaseModel.__setattr__`): a `frozen` model rejects every
assignment, an assignment to a name that is no declared field raises
(`extra` is not `"allow"`), and otherwise the attribute map is updated.
`model_config` leaves `frozen` at its default `False`, so assignment to
any declared field succeeds. -/
def set_field (inst : List (String × Val)) (name : String) (v : Val) :
    Except String (List (String × Val)) :=
  if model_config.frozen then Except.error ("Instance is frozen")
  else if name ∈ schema.map (fun f => f.name) then Except.ok (setVal inst name v)
  else Except.error ("object has no field")

/-- A concrete environment supplying exactly the eight required fields
(used to build a concrete successfully-loaded instance). -/
def env_required : List (String × String) :=
  [(("AZURE_TENANT_ID"), ("tenant-id")), (("AZURE_CLIENT_ID"), ("client-id")),
   (("AZURE_CLIENT_SECRET"), ("client-secret")), (("AZURE_OPENAI_ENDPOINT"), ("endpoint")),
   (("AZURE_OPENAI_API_KEY"), ("api-key")), (("AZURE_WORKSPACE_ID"), ("workspace-id")),
   (("REDIS_HOST"), ("redis-host")), (("JWT_ISSUER"), ("issuer"))]

/-- A concrete instance constructed by a successful load (the `settings`
global of config.py line 198, over `env_required`). -/
def settings0 : List (String × Val) :=
  (load env_required none).toOption.getD ([])

/-- A concrete environment whose only entry gives `CORS_ORIGINS` a bare
origin string — not valid JSON for the plain `List[str]` annotation, so
the environment source's eager decode fails on it. -/
def env_bad_cors : List (String × String) :=
  [(("CORS_ORIGINS"), ("http://localhost:3000"))]

theorem loadErrors_mem (env : List (String × String)) (file : Option (List (String × String)))
    (fs : List FieldSpec) (f : FieldSpec) (e : ConfigError)
    (hf : f ∈ fs) (he : loadField env file f = Except.error e) :
    e ∈ loadErrors env file fs := by
  induction fs with
  | nil => cases hf
  | cons g rest ih =>
    rcases List.mem_cons.mp hf with h | h
    · subst h
      simp [loadErrors, he]
    · cases hg : loadField env file g with
      | error e2 => simp only [loadErrors, hg]; exact List.mem_cons_of_mem e2 (ih h)
      | ok v => simpa only [loadErrors, hg] using ih h

theorem loadErrors_nil_all_ok (env : List (String × String))
    (file : Option (List (String × String))) (fs : List FieldSpec)
    (h : loadErrors env file fs = []) :
    ∀ f ∈ fs, ∃ v, loadField env file f = Except.ok v := by
  induction fs with
  | nil => intro f hf; cases hf
  | cons g rest ih =>
    intro f hf
    cases hg : loadField env file g with
    | error e2 =>
      rw [loadErrors, hg] at h
      exact absurd h (List.cons_ne_nil e2 (loadErrors env file rest))
    | ok v =>
      simp only [loadErrors, hg] at h
      rcases List.mem_cons.mp hf with hh | hh
      · exact ⟨v, hh ▸ hg⟩
      · exact ih h f hh

theorem load_error_inv (env : List (String × String)) (file : Option (List (String × String)))
    (errs : List ConfigError) (h : load env file = Except.error (LoadError.validationError errs)) :
    sourceError env file = none ∧ errs = loadErrors env file schema ∧ errs ≠ [] := by
  unfold load at h
  cases hs : sourceError env file with
  | some name => rw [hs] at h; cases h
  | none =>
    rw [hs] at h
    cases hh : loadErrors env file schema with
    | nil => rw [hh] at h; cases h
    | cons e rest =>
      rw [hh] at h
      cases h
      exact ⟨rfl, rfl, by simp⟩

theorem load_ok_inv (env : List (String × String)) (file : Option (List (String × String)))
    (vals : List (String × Val)) (h : load env file = Except.ok vals) :
    sourceError env file = none ∧ loadErrors env file schema = [] := by
  unfold load at h
  cases hs : sourceError env file with
  | some name => rw [hs] at h; cases h
  | none =>
    rw [hs] at h
    cases hh : loadErrors env file schema with
    | nil => exact ⟨rfl, rfl⟩
    | cons e rest => rw [hh] at h; cases h

theorem load_source_stage (env : List (String × String))
    (file : Option (List (String × String))) (name : String)
    (h : sourceError env file = some name) :
    load env file = Except.error (LoadError.settingsError name) := by
  unfold load
  rw [h]

theorem lookupKV_cons_ne (k v name : String) (kvs : List (String × String)) (h : k ≠ name) :
    lookupKV ((k, v) :: kvs) name = lookupKV kvs name := by
  simp [lookupKV, h]

theorem resolveRaw_cons_ne (k v name : String) (env : List (String × String))
    (file : Option (List (String × String))) (h : k ≠ name) :
    resolveRaw ((k, v) :: env) file name = resolveRaw env file name := by
  unfold resolveRaw
  rw [lookupKV_cons_ne k v name env h]

theorem loadField_cons_ne (k v : String) (env : List (String × String))
    (file : Option (List (String × String))) (f : FieldSpec) (h : k ≠ f.name) :
    loadField ((k, v) :: env) file f = loadField env file f := by
  unfold loadField
  rw [resolveRaw_cons_ne k v f.name env file h]

theorem resolveRaw_file_empty (env : List (String × String)) (name : String) :
    resolveRaw env (some ([])) name = resolveRaw env none name := by
  unfold resolveRaw
  cases lookupKV env name <;> simp [lookupKV]

theorem loadField_file_empty (env : List (String × String)) (f : FieldSpec) :
    loadField env (some ([])) f = loadField env none f := by
  unfold loadField
  rw [resolveRaw_file_empty env f.name]

theorem loadErrors_congr (env1 env2 : List (String × String))
    (file1 file2 : Option (List (String × String))) (fs : List FieldSpec)
    (h : ∀ f ∈ fs, loadField env1 file1 f = loadField env2 file2 f) :
    loadErrors env1 file1 fs = loadErrors env2 file2 fs := by
  induction fs with
  | nil => rfl
  | cons g rest ih =>
    simp only [loadErrors]
    rw [h g (List.mem_cons_self g rest), ih (fun f hf => h f (List.mem_cons_of_mem g hf))]

theorem loadVals_congr (env1 env2 : List (String × String))
    (file1 file2 : Option (List (String × String))) (fs : List FieldSpec)
    (h : ∀ f ∈ fs, loadField env1 file1 f = loadField env2 file2 f) :
    loadVals env1 file1 fs = loadVals env2 file2 fs := by
  induction fs with
  | nil => rfl
  | cons g rest ih =>
    simp only [loadVals]
    rw [h g (List.mem_cons_self g rest), ih (fun f hf => h f (List.mem_cons_of_mem g hf))]

theorem find_congr (fs : List FieldSpec) (p q : FieldSpec → Bool)
    (h : ∀ f ∈ fs, p f = q f) : fs.find? p = fs.find? q := by
  induction fs with
  | nil => rfl
  | cons g rest ih =>
    simp only [List.find?]
    rw [h g (List.mem_cons_self g rest), ih (fun f hf => h f (List.mem_cons_of_mem g hf))]

theorem sourceFieldError_cons_ne (k v : String) (kvs : List (String × String))
    (f : FieldSpec) (h : k ≠ f.name) :
    sourceFieldError ((k, v) :: kvs) f = sourceFieldError kvs f := by
  unfold sourceFieldError
  rw [lookupKV_cons_ne k v f.name kvs h]

theorem load_congr (env1 env2 : List (String × String))
    (file1 file2 : Option (List (String × String)))
    (hsrc : sourceError env1 file1 = sourceError env2 file2)
    (h : ∀ f ∈ schema, loadField env1 file1 f = loadField env2 file2 f) :
    load env1 file1 = load env2 file2 := by
  unfold load
  rw [hsrc, loadErrors_congr env1 env2 file1 file2 schema h,
    loadVals_congr env1 env2 file1 file2 schema h]

theorem getVal_setVal (inst : List (String × Val)) (name : String) (v : Val) :
    getVal (setVal inst name v) name = some v := by
  induction inst with
  | nil => simp [setVal, getVal]
  | cons hd tl ih =>
    obtain ⟨k, w⟩ := hd
    by_cases h : k == name
    · simp [setVal, getVal, h]
    · simp [setVal, getVal, h, ih]

/-- C1 (counterexample): the empty string input to the CORS_ORIGINS
coercion does not yield the empty list — `"".split(",")` is `[""]` in
Python, so the validator returns the one-element list containing the
empty string. -/
theorem cors_empty_string_counterexample :
    parse_cors_origins (CorsInput.str ("")) = Except.ok (CorsInput.list ([""]))
    ∧ parse_cors_origins (CorsInput.str ("")) ≠ Except.ok (CorsInput.list ([])) := by
  decide

/-- C1 (amended): the CORS_ORIGINS coercion splits a raw string on
commas with whitespace trimmed from each element preserving order
(`"a, b ,c"` yields `["a","b","c"]`), passes a list input through
unchanged, and on the empty string yields the one-element list `[""]`
(not the empty list). -/
theorem cors_list_coercion :
    parse_cors_origins (CorsInput.str ("a, b ,c")) = Except.ok (CorsInput.list (["a", "b", "c"]))
    ∧ (∀ l : List String, parse_cors_origins (CorsInput.list l) = Except.ok (CorsInput.list l))
    ∧ parse_cors_origins (CorsInput.str ("")) = Except.ok (CorsInput.list ([""])) :=
  ⟨by decide, fun l => rfl, by decide⟩

/-- C9: the CORS_ORIGINS pre-validator is total on strings — every
string input returns `Except.ok` with a list (one element per
comma-separated segment), interior empty segments are preserved
(`"a,,b"` yields `["a","","b"]`, `""` yields `[""]`), and no input at
all can make the validator return an error. -/
theorem cors_validator_total :
    (∀ s : String, ∃ l : List String,
      parse_cors_origins (CorsInput.str s) = Except.ok (CorsInput.list l)
      ∧ l.length = (splitChar ',' s.data).length)
    ∧ parse_cors_origins (CorsInput.str ("a,,b")) = Except.ok (CorsInput.list (["a", "", "b"]))
    ∧ parse_cors_origins (CorsInput.str ("")) = Except.ok (CorsInput.list ([""]))
    ∧ (∀ v : CorsInput, ∀ e : ConfigError, parse_cors_origins v ≠ Except.error e) := by
  refine ⟨fun s => ⟨(pySplitComma s).map pyStrip, rfl, by simp [pySplitComma]⟩,
    by decide, by decide, fun v e h => ?_⟩
  cases v <;> simp [parse_cors_origins] at h

/-- C2 (counterexample): the raw token `"1"`, which is none of the
case-insensitive true/false spellings, is coerced to `true` by the bool
coercion rather than yielding a coercion error. -/
theorem bool_token_one_accepted :
    coerceBool ("DEBUG") ("1") = Except.ok true
    ∧ ("1") ∉ [("true"), ("True"), ("TRUE"), ("false"), ("False")] := by
  decide

/-- C2 (amended): for a bool field, `"true"`/`"True"`/`"TRUE"` coerce to
`true` and `"false"`/`"False"` coerce to `false`, but the accepted token
sets are pydantic's: any raw value whose lowercasing is in
`["true","t","y","yes","on","1"]` coerces to `true`, any one in
`["false","f","n","no","off","0"]` coerces to `false`, and exactly the
remaining strings yield a coercion error. -/
theorem bool_token_coercion :
    coerceBool ("DEBUG") ("true") = Except.ok true
    ∧ coerceBool ("DEBUG") ("True") = Except.ok true
    ∧ coerceBool ("DEBUG") ("TRUE") = Except.ok true
    ∧ coerceBool ("DEBUG") ("false") = Except.ok false
    ∧ coerceBool ("DEBUG") ("False") = Except.ok false
    ∧ (∀ field raw : String, pyLower raw ∈ pydanticTrueTokens →
        coerceBool field raw = Except.ok true)
    ∧ (∀ field raw : String, pyLower raw ∈ pydanticFalseTokens →
        coerceBool field raw = Except.ok false)
    ∧ (∀ field raw : String, pyLower raw ∉ pydanticTrueTokens →
        pyLower raw ∉ pydanticFalseTokens →
        coerceBool field raw = Except.error (ConfigError.coercion field raw ("bool"))) := by
  refine ⟨by decide, by decide, by decide, by decide, by decide,
    fun field raw h => ?_, fun field raw h => ?_, fun field raw h1 h2 => ?_⟩
  · simp [coerceBool, h]
  · have h1 : pyLower raw ∉ pydanticTrueTokens := by
      intro hh
      simp [pydanticTrueTokens, pydanticFalseTokens] at h hh
      rcases hh with hh | hh | hh | hh | hh | hh <;> simp [hh] at h
    simp [coerceBool, h1, h]
  · simp [coerceBool, h1, h2]

theorem bool_token_coercion_witness :
    (pyLower ("YES") ∈ pydanticTrueTokens
      ∧ coerceBool ("RELOAD") ("YES") = Except.ok true)
    ∧ (pyLower ("oFF") ∈ pydanticFalseTokens
      ∧ coerceBool ("RELOAD") ("oFF") = Except.ok false)
    ∧ coerceBool ("DEBUG") ("enabled") =
        Except.error (ConfigError.coercion ("DEBUG") ("enabled") ("bool")) :=
  ⟨⟨by decide, bool_token_coercion.2.2.2.2.2.1 ("RELOAD") ("YES") (by decide)⟩,
   ⟨by decide, bool_token_coercion.2.2.2.2.2.2.1 ("RELOAD") ("oFF") (by decide)⟩,
   bool_token_coercion.2.2.2.2.2.2.2 ("DEBUG") ("enabled") (by decide) (by decide)⟩

/-- C6: the LOG_LEVEL validator succeeds exactly when the uppercased
input is one of the five valid levels, returning the canonical uppercase
form; on any other input it fails with the enum error naming the field
and the allowed set.  `"debug"` canonicalizes to `"DEBUG"`; `"bogus"`
fails. -/
theorem log_level_validator :
    (∀ v w : String, validate_log_level v = Except.ok w ↔
      pyUpper v ∈ valid_levels ∧ w = pyUpper v)
    ∧ (∀ v : String, pyUpper v ∉ valid_levels →
      validate_log_level v = Except.error (ConfigError.invalidEnum ("LOG_LEVEL") v valid_levels))
    ∧ validate_log_level ("debug") = Except.ok ("DEBUG")
    ∧ validate_log_level ("bogus") =
        Except.error (ConfigError.invalidEnum ("LOG_LEVEL") ("bogus") valid_levels) := by
  refine ⟨fun v w => ?_, fun v hv => ?_, by decide, by decide⟩
  · unfold validate_log_level
    by_cases h : pyUpper v ∈ valid_levels
    · simp [h, eq_comm]
    · simp [h]
  · unfold validate_log_level
    simp [hv]

theorem log_level_validator_witness :
    validate_log_level ("warning") = Except.ok ("WARNING")
    ∧ validate_log_level ("trace") =
        Except.error (ConfigError.invalidEnum ("LOG_LEVEL") ("trace") valid_levels) :=
  ⟨(log_level_validator.1 ("warning") ("WARNING")).mpr ⟨by decide, by decide⟩,
   log_level_validator.2.1 ("trace") (by decide)⟩

/-- C7: `is_production` holds exactly when the `ENVIRONMENT` value
compared case-insensitively equals `"production"`, and `is_development`
exactly when it case-insensitively equals `"development"`; in particular
`"Production"` gives `is_production = true`, `is_development = false`,
and `"development"` gives the inverse. -/
theorem environment_predicates :
    (∀ e : String, is_production e = true ↔ pyLower e = pyLower ("production"))
    ∧ (∀ e : String, is_development e = true ↔ pyLower e = pyLower ("development"))
    ∧ (is_production ("Production") = true ∧ is_development ("Production") = false)
    ∧ (is_production ("development") = false ∧ is_development ("development") = true) := by
  have hp : pyLower ("production") = ("production") := by decide
  have hd : pyLower ("development") = ("development") := by decide
  refine ⟨fun e => ?_, fun e => ?_, ⟨by decide, by decide⟩, ⟨by decide, by decide⟩⟩
  · rw [hp]
    simp [is_production]
  · rw [hd]
    simp [is_development]

theorem environment_predicates_witness :
    (pyLower ("PRODUCTION") = pyLower ("production") ∧ is_production ("PRODUCTION") = true)
    ∧ (pyLower ("DEV") ≠ pyLower ("development") ∧ is_development ("DEV") ≠ true) :=
  ⟨⟨by decide, (environment_predicates.1 ("PRODUCTION")).mpr (by decide)⟩,
   ⟨by decide, fun h => absurd ((environment_predicates.2.1 ("DEV")).mp h) (by decide)⟩⟩

/-- C3 (counterexample): with an empty environment and no override file,
eight fields fail at once and the load surfaces one `ValidationError`
listing all eight missing-field errors (in declaration order), not only
the first one. -/
theorem load_multi_error_accumulated :
    load ([]) none = Except.error (LoadError.validationError
      ([ConfigError.missing ("AZURE_TENANT_ID"), ConfigError.missing ("AZURE_CLIENT_ID"),
        ConfigError.missing ("AZURE_CLIENT_SECRET"), ConfigError.missing ("AZURE_OPENAI_ENDPOINT"),
        ConfigError.missing ("AZURE_OPENAI_API_KEY"), ConfigError.missing ("AZURE_WORKSPACE_ID"),
        ConfigError.missing ("REDIS_HOST"), ConfigError.missing ("JWT_ISSUER")]))
    ∧ ([ConfigError.missing ("AZURE_TENANT_ID"), ConfigError.missing ("AZURE_CLIENT_ID"),
        ConfigError.missing ("AZURE_CLIENT_SECRET"), ConfigError.missing ("AZURE_OPENAI_ENDPOINT"),
        ConfigError.missing ("AZURE_OPENAI_API_KEY"), ConfigError.missing ("AZURE_WORKSPACE_ID"),
        ConfigError.missing ("REDIS_HOST"), ConfigError.missing ("JWT_ISSUER")]).length ≠ 1 := by
  decide

/-- C3 (amended): a `List[str]` field whose source value fails the eager
JSON decode aborts the load at the source stage with a `SettingsError`
naming that field alone (no accumulation); otherwise the load aborts
exactly when some field failed model validation, with one
`ValidationError` that accumulates the error of every failing field — it
is not limited to the first failure — and a successful load requires
every schema field to have loaded.  No failing case returns an
instance. -/
theorem load_error_accumulation :
    (∀ env : List (String × String), ∀ file : Option (List (String × String)),
      ∀ name : String, sourceError env file = some name →
      load env file = Except.error (LoadError.settingsError name))
    ∧ (∀ env : List (String × String), ∀ file : Option (List (String × String)),
      ∀ errs : List ConfigError,
      load env file = Except.error (LoadError.validationError errs) →
      errs ≠ [] ∧ ∀ f ∈ schema, ∀ e : ConfigError,
        loadField env file f = Except.error e → e ∈ errs)
    ∧ (∀ env : List (String × String), ∀ file : Option (List (String × String)),
      ∀ vals : List (String × Val), load env file = Except.ok vals →
      ∀ f ∈ schema, ∃ v : Val, loadField env file f = Except.ok v) := by
  refine ⟨fun env file name h => load_source_stage env file name h, ?_, ?_⟩
  · intro env file errs h
    obtain ⟨hs, heq, hne⟩ := load_error_inv env file errs h
    refine ⟨hne, fun f hf e he => ?_⟩
    rw [heq]
    exact loadErrors_mem env file schema f e hf he
  · intro env file vals h
    exact loadErrors_nil_all_ok env file schema (load_ok_inv env file vals h).2

theorem load_error_accumulation_witness :
    load ([(("CORS_ALLOW_METHODS"), ("x"))]) none =
      Except.error (LoadError.settingsError ("CORS_ALLOW_METHODS"))
    ∧ ConfigError.missing ("REDIS_HOST") ∈
      ([ConfigError.missing ("AZURE_TENANT_ID"), ConfigError.missing ("AZURE_CLIENT_ID"),
        ConfigError.missing ("AZURE_CLIENT_SECRET"), ConfigError.missing ("AZURE_OPENAI_ENDPOINT"),
        ConfigError.missing ("AZURE_OPENAI_API_KEY"), ConfigError.missing ("AZURE_WORKSPACE_ID"),
        ConfigError.missing ("REDIS_HOST"), ConfigError.missing ("JWT_ISSUER")]) :=
  ⟨load_error_accumulation.1 ([(("CORS_ALLOW_METHODS"), ("x"))]) none
     ("CORS_ALLOW_METHODS") (by decide),
   (load_error_accumulation.2.1 ([]) none _ (by decide)).2
     ⟨("REDIS_HOST"), FType.str, none⟩ (by decide)
     (ConfigError.missing ("REDIS_HOST")) (by decide)⟩

/-- C5 (counterexample): with an environment supplying only
`CORS_ORIGINS=http://localhost:3000` — a value that is not valid JSON
for the plain `List[str]` annotation — the required field
`AZURE_TENANT_ID` has no source value, yet the load aborts with the
eager source-stage `SettingsError` naming only `CORS_ORIGINS`; no
missing-field error for `AZURE_TENANT_ID` is surfaced. -/
theorem missing_required_counterexample :
    (⟨("AZURE_TENANT_ID"), FType.str, none⟩ : FieldSpec) ∈ schema
    ∧ resolveRaw env_bad_cors none ("AZURE_TENANT_ID") = none
    ∧ load env_bad_cors none = Except.error (LoadError.settingsError ("CORS_ORIGINS")) := by
  decide

/-- C5 (amended): a required field (declared with no default) that
neither the environment nor the override file resolves always prevents
an instance from being returned; and whenever no `List[str]` source
value fails the eager JSON decode (so no source-stage `SettingsError`
preempts model validation), the load fails with a `ValidationError`
whose error list contains `missing` naming that exact field. -/
theorem missing_required_field_aborts :
    (∀ env : List (String × String), ∀ file : Option (List (String × String)),
      ∀ f : FieldSpec, f ∈ schema → f.default = none →
      resolveRaw env file f.name = none →
      ∀ vals : List (String × Val), load env file ≠ Except.ok vals)
    ∧ (∀ env : List (String × String), ∀ file : Option (List (String × String)),
      ∀ f : FieldSpec, f ∈ schema → f.default = none →
      resolveRaw env file f.name = none → sourceError env file = none →
      ∃ errs : List ConfigError,
        load env file = Except.error (LoadError.validationError errs)
        ∧ ConfigError.missing f.name ∈ errs) := by
  constructor
  · intro env file f hf hreq habs vals hok
    have hfield : loadField env file f = Except.error (ConfigError.missing f.name) := by
      unfold loadField
      rw [habs, hreq]
    have hmem : ConfigError.missing f.name ∈ loadErrors env file schema :=
      loadErrors_mem env file schema f (ConfigError.missing f.name) hf hfield
    rw [(load_ok_inv env file vals hok).2] at hmem
    cases hmem
  · intro env file f hf hreq habs hsrc
    have hfield : loadField env file f = Except.error (ConfigError.missing f.name) := by
      unfold loadField
      rw [habs, hreq]
    have hmem : ConfigError.missing f.name ∈ loadErrors env file schema :=
      loadErrors_mem env file schema f (ConfigError.missing f.name) hf hfield
    refine ⟨loadErrors env file schema, ?_, hmem⟩
    unfold load
    rw [hsrc]
    cases hh : loadErrors env file schema with
    | nil => rw [hh] at hmem; cases hmem
    | cons e rest => rfl

theorem missing_required_field_aborts_witness :
    (∀ vals : List (String × Val), load ([]) none ≠ Except.ok vals)
    ∧ ∃ errs : List ConfigError,
      load ([]) none = Except.error (LoadError.validationError errs)
      ∧ ConfigError.missing ("AZURE_TENANT_ID") ∈ errs :=
  ⟨missing_required_field_aborts.1 ([]) none ⟨("AZURE_TENANT_ID"), FType.str, none⟩
     (by decide) (by decide) (by decide),
   missing_required_field_aborts.2 ([]) none ⟨("AZURE_TENANT_ID"), FType.str, none⟩
     (by decide) (by decide) (by decide) (by decide)⟩

/-- C8: raw values resolve with precedence environment, then override
file, then declared default: an environment hit wins regardless of the
file, a file hit is used only when the environment misses, the declared
default is used when both miss, and a missing override file behaves
exactly like an empty one (its absence is not an error). -/
theorem source_precedence :
    (∀ env : List (String × String), ∀ file : Option (List (String × String)),
      ∀ name v : String, lookupKV env name = some v → resolveRaw env file name = some v)
    ∧ (∀ env fileKVs : List (String × String), ∀ name v : String,
      lookupKV env name = none → lookupKV fileKVs name = some v →
      resolveRaw env (some fileKVs) name = some v)
    ∧ (∀ env : List (String × String), ∀ file : Option (List (String × String)),
      ∀ f : FieldSpec, ∀ d : Val, resolveRaw env file f.name = none → f.default = some d →
      loadField env file f = Except.ok d)
    ∧ (∀ env : List (String × String), load env none = load env (some ([]))) := by
  refine ⟨fun env file name v h => ?_, fun env fileKVs name v h1 h2 => ?_,
    fun env file f d h1 h2 => ?_, fun env => ?_⟩
  · unfold resolveRaw
    rw [h]
  · unfold resolveRaw
    rw [h1]
    exact h2
  · unfold loadField
    rw [h1, h2]
  · have hs : sourceError env (some ([])) = sourceError env none := by
      unfold sourceError
      cases sourceDecodeError env with
      | some name => rfl
      | none => rfl
    exact (load_congr env env (some ([])) none hs
      (fun f _ => loadField_file_empty env f)).symm

theorem source_precedence_witness :
    resolveRaw ([(("HOST"), ("envhost"))]) (some ([(("HOST"), ("filehost"))])) ("HOST") =
      some ("envhost")
    ∧ resolveRaw ([]) (some ([(("HOST"), ("filehost"))])) ("HOST") = some ("filehost")
    ∧ loadField ([]) none ⟨("HOST"), FType.str, some (Val.str ("0.0.0.0"))⟩ =
        Except.ok (Val.str ("0.0.0.0")) :=
  ⟨source_precedence.1 ([(("HOST"), ("envhost"))]) (some ([(("HOST"), ("filehost"))]))
     ("HOST") ("envhost") (by decide),
   source_precedence.2.1 ([]) ([(("HOST"), ("filehost"))]) ("HOST") ("filehost")
     (by decide) (by decide),
   source_precedence.2.2.1 ([]) none ⟨("HOST"), FType.str, some (Val.str ("0.0.0.0"))⟩
     (Val.str ("0.0.0.0")) (by decide) (by decide)⟩

/-- C10: an environment key that matches no declared field name is
silently ignored — loading with the extra key present returns exactly
the same result as loading without it (field-for-field equal instance on
success, identical errors on failure), so the extra key never causes a
failure. -/
theorem extra_env_key_ignored (k v : String) (env : List (String × String))
    (file : Option (List (String × String)))
    (hk : k ∉ schema.map (fun f => f.name)) :
    load ((k, v) :: env) file = load env file := by
  have hwise : ∀ f ∈ schema, k ≠ f.name := by
    intro f hf heq
    exact hk (heq ▸ List.mem_map_of_mem (fun g => g.name) hf)
  have hdec : sourceDecodeError ((k, v) :: env) = sourceDecodeError env := by
    unfold sourceDecodeError
    rw [find_congr schema (fun f => sourceFieldError ((k, v) :: env) f)
      (fun f => sourceFieldError env f)
      (fun f hf => sourceFieldError_cons_ne k v env f (hwise f hf))]
  have hsrc : sourceError ((k, v) :: env) file = sourceError env file := by
    unfold sourceError
    rw [hdec]
  exact load_congr ((k, v) :: env) env file file hsrc
    (fun f hf => loadField_cons_ne k v env file f (hwise f hf))

theorem extra_env_key_ignored_witness :
    (("SOME_UNRELATED_KEY") ∉ schema.map (fun f => f.name))
    ∧ load ([(("SOME_UNRELATED_KEY"), ("whatever"))] ++ env_required) none =
        load env_required none :=
  ⟨by decide,
   extra_env_key_ignored ("SOME_UNRELATED_KEY") ("whatever") env_required none (by decide)⟩

/-- C4 (counterexample): on the concrete instance built by a successful
load, the `DEBUG` field reads `false`; attribute assignment of `true`
(allowed because the model is not configured frozen) succeeds, and the
subsequent read returns `true` — a field of the constructed instance has
changed after construction. -/
theorem settings_mutation_counterexample :
    getVal settings0 ("DEBUG") = some (Val.bool false)
    ∧ set_field settings0 ("DEBUG") (Val.bool true) =
        Except.ok (setVal settings0 ("DEBUG") (Val.bool true))
    ∧ getVal (setVal settings0 ("DEBUG") (Val.bool true)) ("DEBUG") = some (Val.bool true) :=
  ⟨by decide, rfl, by decide⟩

/-- C4 (amended): the model config leaves `frozen` at pydantic's default
`False`, so attribute assignment to any declared field of a constructed
instance succeeds (it is never rejected as a frozen-instance error) and
a subsequent read of the assigned field returns the new value: the
constructed instance is mutable, immutability is not enforced. -/
theorem settings_not_frozen :
    model_config.frozen = false
    ∧ (∀ inst : List (String × Val), ∀ name : String, ∀ v : Val,
      name ∈ schema.map (fun f => f.name) →
      set_field inst name v = Except.ok (setVal inst name v))
    ∧ (∀ inst : List (String × Val), ∀ name : String, ∀ v : Val,
      getVal (setVal inst name v) name = some v) := by
  refine ⟨rfl, fun inst name v h => ?_, fun inst name v => getVal_setVal inst name v⟩
  simp [set_field, model_config, h]

theorem settings_not_frozen_witness :
    (("DEBUG") ∈ schema.map (fun f => f.name))
    ∧ set_field ([]) ("DEBUG") (Val.bool true) =
        Except.ok (setVal ([]) ("DEBUG") (Val.bool true)) :=
  ⟨by decide, settings_not_frozen.2.1 ([]) ("DEBUG") (Val.bool true) (by decide)⟩
